import Mathlib

/-!
Verification development for the popcorn-python repository.

The definitions below are a shallow embedding of the Python sources:

* src/core/library_scanner.py : title normalization and library matching
* src/core/yts_api.py         : the YTS mirror client, Movie / Torrent model,
                                magnet construction, list_movies
* src/ui/movie_grid.py        : the client-side filter pipeline of add_movies
* src/ui/main_window.py       : the pagination controller (filter-change,
                                load-more and result handlers)

Python machine ints are embedded as Int (Python ints are unbounded), Python
floats that only ever carry literal values (the rating field, default 0.0) as
Rat, Python str as String over its ASCII fragment, Python sets of strings as
List String with membership, and dicts with defaulted .get access as
structures of Option-valued fields.  Network I/O is passed in explicitly as a
function from mirror URL to an optional decoded response; None models any
transport error, non-2xx status, or non-JSON body (all of which the source
treats identically via its except clause and raise_for_status).
-/

/-! ## library_scanner.py -/

/-- Python whitespace class (the characters matched by the regex class \s
in ASCII): space, tab, newline, carriage return, vertical tab, form feed. -/
def pySpace (c : Char) : Bool :=
  c == ' ' || c == '\t' || c == '\n' || c == '\r' || c == '\x0b' || c == '\x0c'

/-- Python word-character class \w over ASCII: alphanumeric or underscore. -/
def pyWordChar (c : Char) : Bool :=
  c.isAlphanum || c == '_'

/-- Characters kept by re.sub applied with pattern [^\w\s] and empty
replacement: word characters and whitespace survive, the rest is deleted. -/
def keepChar (c : Char) : Bool :=
  pyWordChar c || pySpace c

/-- One pass of re.sub applied with pattern \s+ and replacement " ": every
maximal run of whitespace becomes a single blank.  The boolean argument
records whether the previously emitted character closed a whitespace run. -/
def collapseAux : Bool → List Char → List Char
  | _, [] => []
  | prevSpace, c :: rest =>
    if pySpace c then
      if prevSpace then collapseAux true rest
      else ' ' :: collapseAux true rest
    else c :: collapseAux false rest

/-- Left part of Python str.strip: drop leading whitespace. -/
def dropLeading : List Char → List Char
  | [] => []
  | c :: rest => if pySpace c then dropLeading rest else c :: rest

/-- Right part of Python str.strip: drop trailing whitespace. -/
def dropTrailing : List Char → List Char
  | [] => []
  | c :: rest =>
    let r := dropTrailing rest
    if r.isEmpty then (if pySpace c then [] else [c]) else c :: r

/-- Python str.strip: remove leading and trailing whitespace. -/
def pyStrip (l : List Char) : List Char :=
  dropTrailing (dropLeading l)

/-- Specification helper: no two adjacent whitespace characters occur in the
list.  Output of the whitespace-collapsing pass satisfies this, and lists
satisfying it (with only blank whitespace) are fixed by that pass. -/
def noDoubleSpace : List Char → Bool
  | [] => true
  | [_] => true
  | a :: b :: rest => !(pySpace a && pySpace b) && noDoubleSpace (b :: rest)

/-- Embedding of library_scanner.normalize_title: lowercase, delete
punctuation (re.sub with pattern [^\w\s]), collapse whitespace runs to a
single blank (re.sub with pattern \s+), then strip. -/
def normalize_title (s : String) : String :=
  ⟨pyStrip (collapseAux false ((s.data.map Char.toLower).filter keepChar))⟩

/-- Embedding of library_scanner.movie_exists_in_library.  The lookup set of
build_lookup_set is a collection of (normalized title, year-or-None) pairs;
Python set membership and iteration are embedded as List membership and
List.any (the function only ever reads the set, so order is irrelevant). -/
def movie_exists_in_library (title : String) (year : Int)
    (lookup : List (String × Option Int)) : Bool :=
  let normalized := normalize_title title
  if (normalized, (some year : Option Int)) ∈ lookup then true
  else lookup.any fun p =>
    decide (p.1 = normalized) && (decide (p.2 = none) || decide (p.2 = some year))

/-! ## yts_api.py : data model -/

/-- Embedding of the Torrent dataclass. -/
structure Torrent where
  url : String
  hash : String
  quality : String
  type : String
  size : String
  size_bytes : Int
  seeds : Int
  peers : Int
deriving DecidableEq

/-- Embedding of the Movie dataclass. -/
structure Movie where
  id : Int
  imdb_code : String
  title : String
  title_long : String
  year : Int
  rating : Rat
  runtime : Int
  genres : List String
  synopsis : String
  language : String
  background_image : String
  small_cover_image : String
  medium_cover_image : String
  large_cover_image : String
  torrents : List Torrent
deriving DecidableEq

/-- A JSON dictionary as consumed by Torrent construction inside
Movie.from_dict: each recognized key is either present or absent. -/
structure TorrentDict where
  url : Option String
  hash : Option String
  quality : Option String
  type : Option String
  size : Option String
  size_bytes : Option Int
  seeds : Option Int
  peers : Option Int
deriving DecidableEq

/-- A JSON dictionary as consumed by Movie.from_dict. -/
structure MovieDict where
  id : Option Int
  imdb_code : Option String
  title : Option String
  title_long : Option String
  year : Option Int
  rating : Option Rat
  runtime : Option Int
  genres : Option (List String)
  synopsis : Option String
  language : Option String
  background_image : Option String
  small_cover_image : Option String
  medium_cover_image : Option String
  large_cover_image : Option String
  torrents : Option (List TorrentDict)
deriving DecidableEq

/-- The TorrentDict with every key absent. -/
def emptyTorrentDict : TorrentDict :=
  ⟨none, none, none, none, none, none, none, none⟩

/-- The MovieDict with every key absent. -/
def emptyMovieDict : MovieDict :=
  ⟨none, none, none, none, none, none, none, none, none, none, none, none,
   none, none, none⟩

/-- Embedding of the per-torrent construction inside Movie.from_dict:
each field is read with dict.get and the listed default. -/
def Torrent.from_dict (t : TorrentDict) : Torrent where
  url := t.url.getD ""
  hash := t.hash.getD ""
  quality := t.quality.getD ""
  type := t.type.getD ""
  size := t.size.getD ""
  size_bytes := t.size_bytes.getD 0
  seeds := t.seeds.getD 0
  peers := t.peers.getD 0

/-- Embedding of Movie.from_dict: every field is read with dict.get and a
fixed default (0, 0.0, the empty string, or the empty list), and the
torrents list is built elementwise via the Torrent constructor loop. -/
def Movie.from_dict (d : MovieDict) : Movie where
  id := d.id.getD 0
  imdb_code := d.imdb_code.getD ""
  title := d.title.getD ""
  title_long := d.title_long.getD ""
  year := d.year.getD 0
  rating := d.rating.getD 0
  runtime := d.runtime.getD 0
  genres := d.genres.getD []
  synopsis := d.synopsis.getD ""
  language := d.language.getD ""
  background_image := d.background_image.getD ""
  small_cover_image := d.small_cover_image.getD ""
  medium_cover_image := d.medium_cover_image.getD ""
  large_cover_image := d.large_cover_image.getD ""
  torrents := (d.torrents.getD []).map Torrent.from_dict

/-- The magnet URI literal built by Movie.get_magnet from a torrent hash and
a movie title (the f-string of the source, with its two hardcoded tracker
announce URLs). -/
def magnet_link (h ttl : String) : String :=
  "magnet:?xt=urn:btih:" ++ h ++ "&dn=" ++ ttl ++
    "&tr=udp://open.demonii.com:1337/announce&tr=udp://tracker.openbittorrent.com:80"

/-- The for-loop of Movie.get_magnet: return the magnet for the first torrent
whose quality equals the requested one, or nothing if the loop falls through. -/
def get_magnet_loop (ttl quality : String) : List Torrent → Option String
  | [] => none
  | t :: rest =>
    if t.quality = quality then some (magnet_link t.hash ttl)
    else get_magnet_loop ttl quality rest

/-- Embedding of Movie.get_magnet: try the requested quality, fall back to
the first available torrent, return None when there are no torrents. -/
def Movie.get_magnet (m : Movie) (quality : String) : Option String :=
  match get_magnet_loop m.title quality m.torrents with
  | some s => some s
  | none =>
    match m.torrents with
    | t :: _ => some (magnet_link t.hash m.title)
    | [] => none

/-! ## yts_api.py : mirror client -/

/-- Decoded JSON body of a list_movies response, as far as the client reads
it: the top-level status field and the data container with movie_count and
movies (each possibly absent, read via dict.get with a default). -/
structure ListData where
  movie_count : Option Int
  movies : Option (List MovieDict)
deriving DecidableEq

/-- A decoded JSON response body: the top-level status field and the data
container. -/
structure Resp where
  status : Option String
  data : Option ListData
deriving DecidableEq

/-- Mutable mirror state of YTSApi: the candidate list (the MIRRORS class
attribute), the BASE_URL attribute, and current_mirror_idx. -/
structure ApiState where
  mirrors : List String
  baseUrl : String
  current_mirror_idx : Nat
deriving DecidableEq

/-- The MIRRORS class attribute of YTSApi. -/
def YTS_MIRRORS : List String :=
  ["https://yts.lt/api/v2", "https://yts.mx/api/v2", "https://yts.rs/api/v2",
   "https://yts.torrentbay.to/api/v2"]

namespace YTSApi

/-- Whether a mirror outcome counts as a success for the fail-over loop of
_try_request: a decoded body must exist and its status field must be "ok".
None covers transport errors, non-2xx statuses and non-JSON bodies. -/
def okResp : Option Resp → Bool
  | some d => decide (d.status = some "ok")
  | none => false

/-- The sticky-routing update inside _try_request: on a success against a
mirror other than BASE_URL, repoint BASE_URL and current_mirror_idx at it. -/
def updateMirror (st : ApiState) (m : String) : ApiState :=
  if m ≠ st.baseUrl then
    { st with baseUrl := m, current_mirror_idx := st.mirrors.indexOf m }
  else st

/-- The mirrors_to_try list of _try_request: the current mirror first, then
every mirror whose position differs from current_mirror_idx, in order. -/
def mirrorsToTry (st : ApiState) : List String :=
  st.mirrors[st.current_mirror_idx]! ::
    ((st.mirrors.enum.filter fun p => decide (p.1 ≠ st.current_mirror_idx)).map
      Prod.snd)

/-- The fail-over loop of _try_request over a given attempt list: each mirror
is queried in turn; a response whose status is "ok" is returned after the
sticky-routing update, anything else moves on to the next mirror. -/
def tryGo (net : String → Option Resp) (st : ApiState) :
    List String → Option Resp × ApiState
  | [] => (none, st)
  | m :: rest =>
    match net m with
    | some d =>
      if d.status = some "ok" then (some d, updateMirror st m)
      else tryGo net st rest
    | none => tryGo net st rest

/-- Embedding of YTSApi._try_request (the leading underscore of the source
name is dropped): build the attempt order, run the fail-over loop, and
return None only after every mirror has failed. -/
def try_request (net : String → Option Resp) (st : ApiState) :
    Option Resp × ApiState :=
  tryGo net st (mirrorsToTry st)

/-- Embedding of YTSApi.list_movies.  The request parameter assembly (page,
limit, sort, genre lowering, query passthrough) does not influence any claim
and is absorbed into the supplied network function; everything from the
_try_request call onward follows the source line by line.  An all-mirrors
failure yields the pair ([], 0); a successful body is unpacked with
dict.get defaults and an empty raw movie list short-circuits before the
Movie construction. -/
def list_movies (net : String → Option Resp) (st : ApiState) :
    (List Movie × Int) × ApiState :=
  let r := try_request net st
  match r.1 with
  | none => (([], 0), r.2)
  | some d =>
    let movie_data := d.data.getD ⟨none, none⟩
    let movie_count := movie_data.movie_count.getD 0
    let movies_raw := movie_data.movies.getD []
    if movies_raw = [] then (([], movie_count), r.2)
    else ((movies_raw.map Movie.from_dict, movie_count), r.2)

end YTSApi

/-! ## movie_grid.py : filter pipeline -/

/-- The membership sets handed to MovieGrid by MainWindow (downloaded,
hidden, watched and watchlist IMDb codes, and the library lookup set). -/
structure GridSets where
  downloaded_codes : List String
  hidden_codes : List String
  watched_codes : List String
  watchlist_codes : List String
  library_lookup : List (String × Option Int)
deriving DecidableEq

/-- The filter configuration as extracted (with dict.get defaults already
applied) at the top of MovieGrid.add_movies, together with the server-side
fields that MainWindow reads from the same dict when building a request. -/
structure Filters where
  genre : Option String
  query : Option String
  sort_by : String
  order_by : String
  minimum_rating : Int
  hide_downloaded : Bool
  show_hidden : Bool
  hide_watched : Bool
  hide_watchlist : Bool
  show_watchlist_only : Bool
  min_year : Int
  max_year : Int
  min_runtime : Int
  max_runtime : Int
  quality_2160p : Bool
  quality_1080p : Bool
  quality_720p : Bool
  min_seeds : Int
  language : String
deriving DecidableEq

/-- Embedding of MovieGrid._is_in_library (the leading underscore is
dropped): textually the same algorithm as movie_exists_in_library, applied
to the movie's title and year against the grid's library lookup set. -/
def MovieGrid.is_in_library (m : Movie)
    (lookup : List (String × Option Int)) : Bool :=
  let normalized := normalize_title m.title
  if (normalized, (some m.year : Option Int)) ∈ lookup then true
  else lookup.any fun p =>
    decide (p.1 = normalized) && (decide (p.2 = none) || decide (p.2 = some m.year))

/-- The quality check of add_movies: whether the movie offers a torrent in
one of the enabled quality labels. -/
def hasSelectedQuality (f : Filters) (m : Movie) : Bool :=
  (f.quality_2160p && m.torrents.any fun t => decide (t.quality = "2160p")) ||
  (f.quality_1080p && m.torrents.any fun t => decide (t.quality = "1080p")) ||
  (f.quality_720p && m.torrents.any fun t => decide (t.quality = "720p"))

/-- Python max over the (nonempty) list of per-torrent seed counts. -/
def maxSeeds : List Torrent → Int
  | [] => 0
  | t :: rest => rest.foldl (fun a u => max a u.seeds) t.seeds

/-- The stages of the add_movies loop that follow the watchlist decision:
ownership, year range, runtime range, language, quality availability and
minimum seeds, in source order with source short-circuiting. -/
def moviePassesRest (f : Filters) (g : GridSets) (m : Movie) : Bool :=
  let is_owned := decide (m.imdb_code ∈ g.downloaded_codes) ||
    MovieGrid.is_in_library m g.library_lookup
  if f.hide_downloaded && is_owned then false
  else if m.year < f.min_year || m.year > f.max_year then false
  else if m.runtime > 0 && (m.runtime < f.min_runtime || m.runtime > f.max_runtime)
    then false
  else if decide (f.language ≠ "All") &&
      decide (m.language.toLower ≠ f.language.toLower) then false
  else if !m.torrents.isEmpty &&
      ((f.quality_2160p || f.quality_1080p || f.quality_720p) &&
        !hasSelectedQuality f m) then false
  else if f.min_seeds > 0 && !m.torrents.isEmpty &&
      decide (maxSeeds m.torrents < f.min_seeds) then false
  else true

/-- The complete per-movie verdict of the add_movies loop: hidden, watched
and watchlist stages first (continue means reject), then the remaining
stages.  A movie passes exactly when the loop body reaches the card
construction at the bottom. -/
def moviePasses (f : Filters) (g : GridSets) (m : Movie) : Bool :=
  let is_hidden := decide (m.imdb_code ∈ g.hidden_codes)
  let is_watched := decide (m.imdb_code ∈ g.watched_codes)
  let is_in_watchlist := decide (m.imdb_code ∈ g.watchlist_codes)
  if is_hidden && !f.show_hidden then false
  else if is_watched && f.hide_watched then false
  else if f.show_watchlist_only then
    if !is_in_watchlist then false else moviePassesRest f g m
  else if f.hide_watchlist && is_in_watchlist then false
  else moviePassesRest f g m

/-- Embedding of MovieGrid.add_movies on the card list: the survivors of the
filter pipeline are appended, in order, to the existing cards. -/
def MovieGrid.add_movies (cards : List Movie) (movies : List Movie)
    (f : Filters) (g : GridSets) : List Movie :=
  cards ++ movies.filter (moviePasses f g)

/-- Embedding of MovieGrid.set_movies: clear, then add. -/
def MovieGrid.set_movies (movies : List Movie) (f : Filters) (g : GridSets) :
    List Movie :=
  MovieGrid.add_movies [] movies f g

/-! ## main_window.py : pagination controller -/

/-- Which handler the in-flight MovieLoaderThread is connected to: the
initial-load handler _on_movies_loaded or the load-more handler
_on_more_movies_loaded. -/
inductive LoadKind where
  | initial : LoadKind
  | more : LoadKind
deriving DecidableEq

/-- The MainWindow state relevant to pagination: the page cursor, the total
reported by the API, the in-flight guard, the current filter dict, the
consecutive-unproductive-page counter, the visible cards of the grid, the
membership sets, and the pending loader (if any).  wantsMore records whether
the handler that just ran invoked check_needs_more (the viewport-fill
request for a further page), and emptyStateMsg the message of a
show_empty_state call, if one was made. -/
structure WinState where
  current_page : Int
  total_movies : Int
  is_loading : Bool
  current_filters : Filters
  empty_pages_count : Nat
  cards : List Movie
  sets : GridSets
  pending : Option LoadKind
  wantsMore : Bool
  emptyStateMsg : Option String
deriving DecidableEq

/-- Embedding of MainWindow._load_movies: a no-op while a fetch is in
flight, otherwise start a loader connected to _on_movies_loaded for the
current page and filters. -/
def load_movies (st : WinState) : WinState :=
  if st.is_loading then st
  else { st with is_loading := true, pending := some LoadKind.initial }

/-- Embedding of MainWindow._load_more_movies: a no-op while a fetch is in
flight, otherwise advance the page cursor and start a loader connected to
_on_more_movies_loaded. -/
def load_more_movies (st : WinState) : WinState :=
  if st.is_loading then st
  else { st with current_page := st.current_page + 1, is_loading := true,
                 pending := some LoadKind.more }

/-- Embedding of MainWindow._on_filters_changed: store the new filter dict,
reset the page cursor and the empty-page counter, and call _load_movies. -/
def on_filters_changed (f : Filters) (st : WinState) : WinState :=
  load_movies { st with current_filters := f, current_page := 1,
                        empty_pages_count := 0 }

/-- Embedding of MainWindow._on_movies_loaded: clear the in-flight guard,
reset the empty-page counter, replace the grid contents through set_movies
under the current filters, then branch exactly as the source does on the raw
page and the card count (show_empty_state clears the grid as a side
effect). -/
def on_movies_loaded (movies : List Movie) (total : Int) (st : WinState) :
    WinState :=
  let new_cards := MovieGrid.set_movies movies st.current_filters st.sets
  let st1 : WinState :=
    { st with is_loading := false, pending := none, total_movies := total,
              empty_pages_count := 0, cards := new_cards,
              wantsMore := false, emptyStateMsg := none }
  if movies = [] then
    { st1 with cards := [],
               emptyStateMsg := some "No movies found. Try different filters." }
  else if new_cards.length = 0 then
    let st2 := { st1 with empty_pages_count := st1.empty_pages_count + 1 }
    if st2.empty_pages_count < 20 then { st2 with wantsMore := true }
    else
      { st2 with cards := [],
                 emptyStateMsg := some "All movies filtered. Try different filters." }
  else { st1 with wantsMore := true }

/-- Embedding of MainWindow._on_more_movies_loaded: clear the in-flight
guard, append the survivors of the page under the current filters, update
the consecutive-empty-page counter (increment when the page added no card
despite being nonempty, reset otherwise), then either ask for more content
or, at the 20-page ceiling with an empty grid, show the all-filtered empty
state. -/
def on_more_movies_loaded (movies : List Movie) (total : Int) (st : WinState) :
    WinState :=
  let cards_before := st.cards.length
  let new_cards := MovieGrid.add_movies st.cards movies st.current_filters st.sets
  let cards_after := new_cards.length
  let counter :=
    if cards_after = cards_before ∧ movies ≠ [] then st.empty_pages_count + 1
    else 0
  let st1 : WinState :=
    { st with is_loading := false, pending := none, total_movies := total,
              cards := new_cards, empty_pages_count := counter,
              wantsMore := false, emptyStateMsg := none }
  if counter < 20 then { st1 with wantsMore := true }
  else if cards_after = 0 then
    { st1 with cards := [],
               emptyStateMsg := some "All movies filtered. Try different filters." }
  else st1

/-- Delivery of an in-flight fetch result: the signal of the finished
MovieLoaderThread reaches whichever handler it was connected to. -/
def deliver (movies : List Movie) (total : Int) (st : WinState) : WinState :=
  match st.pending with
  | none => st
  | some LoadKind.initial => on_movies_loaded movies total st
  | some LoadKind.more => on_more_movies_loaded movies total st

/-! ## Concrete fixtures used by witnesses and counterexamples -/

/-- Empty membership sets: nothing downloaded, hidden, watched, watchlisted,
and an empty library. -/
def noSets : GridSets := ⟨[], [], [], [], []⟩

/-- A fully permissive filter configuration (the defaults of add_movies with
hide_downloaded and hide_watchlist switched off). -/
def cfgOpen : Filters where
  genre := none
  query := none
  sort_by := "download_count"
  order_by := "desc"
  minimum_rating := 0
  hide_downloaded := false
  show_hidden := false
  hide_watched := false
  hide_watchlist := false
  show_watchlist_only := false
  min_year := 1900
  max_year := 2100
  min_runtime := 0
  max_runtime := 500
  quality_2160p := true
  quality_1080p := true
  quality_720p := true
  min_seeds := 0
  language := "All"

/-- A year-range configuration accepting 2000-2020 only. -/
def cfgNarrow : Filters := { cfgOpen with min_year := 2000, max_year := 2020 }

/-- A year-range configuration accepting nothing after 1950. -/
def cfgOld : Filters := { cfgOpen with max_year := 1950 }

/-- A 2010 movie without torrents. -/
def movie2010 : Movie where
  id := 1
  imdb_code := "tt1375666"
  title := "Inception"
  title_long := "Inception (2010)"
  year := 2010
  rating := 8
  runtime := 148
  genres := ["Action"]
  synopsis := ""
  language := "en"
  background_image := ""
  small_cover_image := ""
  medium_cover_image := ""
  large_cover_image := ""
  torrents := []

/-- A 1900 movie, rejected by cfgNarrow and accepted by cfgOpen. -/
def movie1900 : Movie :=
  { movie2010 with id := 2, imdb_code := "tt0000002", title := "Old",
                   title_long := "Old (1900)", year := 1900 }

/-- A 720p torrent variant. -/
def t720 : Torrent := ⟨"", "HASH720", "720p", "web", "700MB", 700, 5, 10⟩

/-- A 1080p torrent variant. -/
def t1080 : Torrent := ⟨"", "HASH1080", "1080p", "web", "1.4GB", 1400, 50, 60⟩

/-- The 2010 movie with two torrent variants. -/
def movieTor : Movie := { movie2010 with torrents := [t720, t1080] }

/-- Membership sets where the 2010 movie is on the watchlist. -/
def wlSets : GridSets := ⟨[], [], [], ["tt1375666"], []⟩

/-- A fresh MainWindow pagination state under the given filters. -/
def win0 (f : Filters) : WinState where
  current_page := 1
  total_movies := 0
  is_loading := false
  current_filters := f
  empty_pages_count := 0
  cards := []
  sets := noSets
  pending := none
  wantsMore := false
  emptyStateMsg := none

/-- C3 trace, start: a fresh browse under cfgNarrow whose first page yields
one visible card. -/
def c3start : WinState := deliver [movie2010] 500 (load_movies (win0 cfgNarrow))

/-- C3 trace, one automatic round: the viewport wants more, a further page
is fetched, and it arrives containing one raw movie that the year filter
rejects (an unproductive page). -/
def c3step (st : WinState) : WinState := deliver [movie1900] 500 (load_more_movies st)

/-- C3 trace, end: twenty consecutive unproductive pages after the single
productive one. -/
def c3final : WinState := c3step^[20] c3start

/-- C2 trace: a load-more fetch goes in flight under cfgOld. -/
def c2s1 : WinState := load_more_movies (win0 cfgOld)

/-- C2 trace: the filter configuration changes to cfgOpen while that fetch
is still in flight. -/
def c2s2 : WinState := on_filters_changed cfgOpen c2s1

/-- C2 trace: the stale in-flight result arrives after the change. -/
def c2s3 : WinState := deliver [movie2010] 500 c2s2

/-- C7 trace: a completed initial load showing one card. -/
def c7s1 : WinState := deliver [movie2010] 500 (load_movies (win0 cfgOpen))

/-- C7 trace: a load-more fetch goes in flight. -/
def c7s2 : WinState := load_more_movies c7s1

/-- C7 trace: a new browse operation starts while the fetch is in flight. -/
def c7s3 : WinState := on_filters_changed cfgNarrow c7s2

/-- The mirror state right after construction: the full MIRRORS list with
the first mirror preferred. -/
def apiStart : ApiState := ⟨YTS_MIRRORS, "https://yts.lt/api/v2", 0⟩

/-- A network on which every mirror fails. -/
def netAllFail : String → Option Resp := fun _ => none

/-- A well-formed response with zero matching movies. -/
def respEmptyOk : Resp := ⟨some "ok", some ⟨some 0, some []⟩⟩

/-- A network on which the first mirror answers with a valid empty result. -/
def netEmptyOk : String → Option Resp := fun _ => some respEmptyOk

/-- A well-formed response carrying a movie count. -/
def respC5 : Resp := ⟨some "ok", some ⟨some 42, some []⟩⟩

/-- A network on which only the third mirror is reachable. -/
def netThird : String → Option Resp :=
  fun m => if m = "https://yts.rs/api/v2" then some respC5 else none

/-! ## Helper lemmas : normalization -/

/-- Mapping a function that fixes every element of a list is the identity. -/
theorem map_fix {α : Type} {f : α → α} : ∀ l : List α, (∀ c ∈ l, f c = c) → l.map f = l
  | [], _ => rfl
  | c :: rest, h => by
    simp only [List.map_cons, h c (List.mem_cons_self c rest)]
    exact congrArg (c :: ·) (map_fix rest fun x hx => h x (List.mem_cons_of_mem c hx))

/-- Filtering with a predicate that holds on every element is the identity. -/
theorem filter_fix {α : Type} {p : α → Bool} : ∀ l : List α, (∀ c ∈ l, p c = true) → l.filter p = l
  | [], _ => rfl
  | c :: rest, h => by
    simp only [List.filter_cons, h c (List.mem_cons_self c rest), if_true]
    exact congrArg (c :: ·) (filter_fix rest fun x hx => h x (List.mem_cons_of_mem c hx))

/-- Char.toLower is idempotent. -/
theorem toLower_idem (c : Char) : Char.toLower (Char.toLower c) = Char.toLower c := by
  unfold Char.toLower
  by_cases h : c.toNat ≥ 65 ∧ c.toNat ≤ 90
  · simp only [if_pos h]
    obtain ⟨h1, h2⟩ := h
    interval_cases hn : c.toNat <;> decide
  · simp only [if_neg h]

/-- Every character emitted by the whitespace-collapsing pass is either a
blank or a non-whitespace character of the input. -/
theorem mem_collapseAux : ∀ (l : List Char) (b : Bool) (c : Char),
    c ∈ collapseAux b l → c = ' ' ∨ (c ∈ l ∧ pySpace c = false)
  | [], _, _, h => absurd h (List.not_mem_nil _)
  | d :: rest, b, c, h => by
    by_cases hd : pySpace d = true
    · by_cases hb : b = true
      · subst hb
        simp only [collapseAux, hd, if_true] at h
        rcases mem_collapseAux rest true c h with h' | ⟨h1, h2⟩
        · exact Or.inl h'
        · exact Or.inr ⟨List.mem_cons_of_mem d h1, h2⟩
      · have hb' : b = false := by revert hb; cases b <;> simp
        subst hb'
        simp only [collapseAux, hd, if_true, if_false, Bool.false_eq_true,
          List.mem_cons] at h
        rcases h with h' | h'
        · exact Or.inl h'
        · rcases mem_collapseAux rest true c h' with h'' | ⟨h1, h2⟩
          · exact Or.inl h''
          · exact Or.inr ⟨List.mem_cons_of_mem d h1, h2⟩
    · have hd' : pySpace d = false := by revert hd; cases pySpace d <;> simp
      simp only [collapseAux, hd', Bool.false_eq_true, if_false, List.mem_cons] at h
      rcases h with h' | h'
      · subst h'; exact Or.inr ⟨List.mem_cons_self _ _, hd'⟩
      · rcases mem_collapseAux rest false c h' with h'' | ⟨h1, h2⟩
        · exact Or.inl h''
        · exact Or.inr ⟨List.mem_cons_of_mem d h1, h2⟩

/-- In skip-leading mode the collapsing pass never emits a leading
whitespace character. -/
theorem collapse_head : ∀ (l : List Char) (c : Char),
    (collapseAux true l).head? = some c → pySpace c = false
  | [], c, h => by simp [collapseAux] at h
  | d :: rest, c, h => by
    by_cases hd : pySpace d = true
    · simp only [collapseAux, hd, if_true] at h
      exact collapse_head rest c h
    · have hd' : pySpace d = false := by revert hd; cases pySpace d <;> simp
      simp only [collapseAux, hd', Bool.false_eq_true, if_false, List.head?_cons,
        Option.some.injEq] at h
      subst h; exact hd'

/-- Unfolding characterization of noDoubleSpace at a cons cell. -/
theorem noDouble_cons (a : Char) (l : List Char) :
    noDoubleSpace (a :: l) = true ↔
      (∀ b, l.head? = some b → (pySpace a && pySpace b) = false) ∧
        noDoubleSpace l = true := by
  cases l with
  | nil => simp [noDoubleSpace]
  | cons b rest =>
    simp only [noDoubleSpace, Bool.and_eq_true, Bool.not_eq_true',
      List.head?_cons, Option.some.injEq]
    constructor
    · rintro ⟨h1, h2⟩
      exact ⟨fun b' hb' => hb' ▸ h1, h2⟩
    · rintro ⟨h1, h2⟩
      exact ⟨h1 b rfl, h2⟩

/-- The tail of a list without adjacent whitespace has none either. -/
theorem noDouble_tail (a : Char) (l : List Char)
    (h : noDoubleSpace (a :: l) = true) : noDoubleSpace l = true :=
  ((noDouble_cons a l).mp h).2

/-- The whitespace-collapsing pass never emits two adjacent whitespace
characters. -/
theorem collapse_noDouble : ∀ (l : List Char) (b : Bool),
    noDoubleSpace (collapseAux b l) = true
  | [], _ => rfl
  | c :: rest, b => by
    by_cases hc : pySpace c = true
    · cases b with
      | true =>
        simp only [collapseAux, hc, if_true]
        exact collapse_noDouble rest true
      | false =>
        simp only [collapseAux, hc, if_true, Bool.false_eq_true, if_false]
        refine (noDouble_cons _ _).mpr ⟨fun b' hb' => ?_, collapse_noDouble rest true⟩
        rw [collapse_head rest b' hb', Bool.and_false]
    · have hc' : pySpace c = false := by revert hc; cases pySpace c <;> simp
      simp only [collapseAux, hc', Bool.false_eq_true, if_false]
      refine (noDouble_cons _ _).mpr ⟨fun b' _ => ?_, collapse_noDouble rest false⟩
      rw [hc', Bool.false_and]

/-- Lists whose whitespace is already collapsed (only blanks, never two in a
row) are fixed by the collapsing pass; in skip-leading mode this needs the
head to be non-whitespace. -/
theorem collapse_fix : ∀ l : List Char,
    (∀ c ∈ l, pySpace c = true → c = ' ') → noDoubleSpace l = true →
    ((∀ c, l.head? = some c → pySpace c = false) → collapseAux true l = l) ∧
      collapseAux false l = l
  | [], _, _ => ⟨fun _ => rfl, rfl⟩
  | c :: rest, hP, hN => by
    have hNc := (noDouble_cons c rest).mp hN
    have ih := collapse_fix rest (fun x hx => hP x (List.mem_cons_of_mem c hx)) hNc.2
    constructor
    · intro hhead
      have hc : pySpace c = false := hhead c rfl
      simp only [collapseAux, hc, Bool.false_eq_true, if_false, ih.2]
    · by_cases hc : pySpace c = true
      · have hcBlank : c = ' ' := hP c (List.mem_cons_self c rest) hc
        have htail : collapseAux true rest = rest := ih.1 (fun b hb => by
          have hb2 := hNc.1 b hb
          rw [hc, Bool.true_and] at hb2
          exact hb2)
        calc collapseAux false (c :: rest)
            = ' ' :: collapseAux true rest := by simp [collapseAux, hc]
          _ = ' ' :: rest := by rw [htail]
          _ = c :: rest := by rw [hcBlank]
      · have hc' : pySpace c = false := by revert hc; cases pySpace c <;> simp
        simp only [collapseAux, hc', Bool.false_eq_true, if_false, ih.2]

/-- Characters surviving the leading strip come from the input. -/
theorem mem_dropLeading : ∀ (l : List Char) (c : Char), c ∈ dropLeading l → c ∈ l
  | [], c, h => absurd h (List.not_mem_nil c)
  | d :: rest, c, h => by
    by_cases hd : pySpace d = true
    · simp only [dropLeading, hd, if_true] at h
      exact List.mem_cons_of_mem d (mem_dropLeading rest c h)
    · simp only [dropLeading, hd, Bool.false_eq_true, if_false] at h
      exact h

/-- After the leading strip the head, if any, is non-whitespace. -/
theorem dropLeading_head : ∀ (l : List Char) (c : Char),
    (dropLeading l).head? = some c → pySpace c = false
  | [], c, h => by simp [dropLeading] at h
  | d :: rest, c, h => by
    by_cases hd : pySpace d = true
    · simp only [dropLeading, hd, if_true] at h
      exact dropLeading_head rest c h
    · have hd' : pySpace d = false := by revert hd; cases pySpace d <;> simp
      simp only [dropLeading, hd', Bool.false_eq_true, if_false, List.head?_cons,
        Option.some.injEq] at h
      exact h ▸ hd'

/-- A list whose head is non-whitespace is fixed by the leading strip. -/
theorem dropLeading_fix : ∀ l : List Char,
    (∀ c, l.head? = some c → pySpace c = false) → dropLeading l = l
  | [], _ => rfl
  | c :: rest, h => by
    have hc := h c rfl
    simp only [dropLeading, hc, Bool.false_eq_true, if_false]

/-- The leading strip preserves absence of adjacent whitespace. -/
theorem dropLeading_noDouble : ∀ l : List Char,
    noDoubleSpace l = true → noDoubleSpace (dropLeading l) = true
  | [], h => h
  | c :: rest, h => by
    by_cases hc : pySpace c = true
    · simp only [dropLeading, hc, if_true]
      exact dropLeading_noDouble rest (noDouble_tail c rest h)
    · simp only [dropLeading, hc, Bool.false_eq_true, if_false]
      exact h

/-- Characters surviving the trailing strip come from the input. -/
theorem mem_dropTrailing : ∀ (l : List Char) (c : Char), c ∈ dropTrailing l → c ∈ l
  | [], c, h => absurd h (List.not_mem_nil c)
  | d :: rest, c, h => by
    simp only [dropTrailing] at h
    by_cases hr : (dropTrailing rest).isEmpty = true
    · simp only [hr, if_true] at h
      by_cases hd : pySpace d = true
      · simp only [hd, if_true] at h
        exact absurd h (List.not_mem_nil c)
      · simp only [hd, Bool.false_eq_true, if_false, List.mem_singleton] at h
        exact h ▸ List.mem_cons_self d rest
    · simp only [hr, Bool.false_eq_true, if_false, List.mem_cons] at h
      rcases h with h | h
      · exact h ▸ List.mem_cons_self d rest
      · exact List.mem_cons_of_mem d (mem_dropTrailing rest c h)

/-- The trailing strip preserves the head when its result is nonempty. -/
theorem dropTrailing_head : ∀ (l : List Char) (c : Char),
    (dropTrailing l).head? = some c → l.head? = some c
  | [], c, h => by simp [dropTrailing] at h
  | d :: rest, c, h => by
    simp only [dropTrailing] at h
    by_cases hr : (dropTrailing rest).isEmpty = true
    · simp only [hr, if_true] at h
      by_cases hd : pySpace d = true
      · simp [hd] at h
      · simp only [hd, Bool.false_eq_true, if_false, List.head?_cons,
          Option.some.injEq] at h
        simp [h]
    · simp only [hr, Bool.false_eq_true, if_false, List.head?_cons,
        Option.some.injEq] at h
      simp [h]

/-- After the trailing strip the last character, if any, is non-whitespace. -/
theorem dropTrailing_getLast : ∀ (l : List Char) (c : Char),
    (dropTrailing l).getLast? = some c → pySpace c = false
  | [], c, h => by simp [dropTrailing] at h
  | d :: rest, c, h => by
    simp only [dropTrailing] at h
    by_cases hr : (dropTrailing rest).isEmpty = true
    · simp only [hr, if_true] at h
      by_cases hd : pySpace d = true
      · simp [hd] at h
      · have hd' : pySpace d = false := by revert hd; cases pySpace d <;> simp
        simp only [hd', Bool.false_eq_true, if_false, List.getLast?_singleton,
          Option.some.injEq] at h
        exact h ▸ hd'
    · simp only [hr, Bool.false_eq_true, if_false] at h
      cases ht : dropTrailing rest with
      | nil => rw [ht] at hr; simp at hr
      | cons x xs =>
        rw [ht, List.getLast?_cons_cons] at h
        exact dropTrailing_getLast rest c (by rw [ht]; exact h)

/-- A list whose last character is non-whitespace is fixed by the trailing
strip. -/
theorem dropTrailing_fix : ∀ l : List Char,
    (∀ c, l.getLast? = some c → pySpace c = false) → dropTrailing l = l
  | [], _ => rfl
  | d :: rest, h => by
    cases rest with
    | nil =>
      have hd := h d (by simp)
      simp [dropTrailing, hd]
    | cons e rest' =>
      have hrec : dropTrailing (e :: rest') = e :: rest' :=
        dropTrailing_fix (e :: rest') (fun c hc =>
          h c (by rw [List.getLast?_cons_cons]; exact hc))
      conv_lhs => rw [dropTrailing]
      rw [hrec]
      simp

/-- The trailing strip preserves absence of adjacent whitespace. -/
theorem dropTrailing_noDouble : ∀ l : List Char,
    noDoubleSpace l = true → noDoubleSpace (dropTrailing l) = true
  | [], h => h
  | d :: rest, h => by
    simp only [dropTrailing]
    by_cases hr : (dropTrailing rest).isEmpty = true
    · simp only [hr, if_true]
      by_cases hd : pySpace d = true <;> simp [hd, noDoubleSpace]
    · simp only [hr, Bool.false_eq_true, if_false]
      refine (noDouble_cons d _).mpr ⟨fun b hb => ?_, ?_⟩
      · exact ((noDouble_cons d rest).mp h).1 b (dropTrailing_head rest b hb)
      · exact dropTrailing_noDouble rest (noDouble_tail d rest h)

/-- The character-level content of normalize_title is idempotent. -/
theorem normalize_chars_idem (l : List Char) :
    pyStrip (collapseAux false
      (((pyStrip (collapseAux false ((l.map Char.toLower).filter keepChar))).map
          Char.toLower).filter keepChar)) =
      pyStrip (collapseAux false ((l.map Char.toLower).filter keepChar)) := by
  set x := (l.map Char.toLower).filter keepChar with hx
  set v := collapseAux false x with hv
  have hmem : ∀ c ∈ pyStrip v,
      c = ' ' ∨ (keepChar c = true ∧ pySpace c = false ∧ Char.toLower c = c) := by
    intro c hc
    have hcv : c ∈ v := mem_dropLeading v c (mem_dropTrailing (dropLeading v) c hc)
    rcases mem_collapseAux x false c hcv with h | ⟨hx1, hx2⟩
    · exact Or.inl h
    · right
      refine ⟨(List.mem_filter.mp hx1).2, hx2, ?_⟩
      obtain ⟨d, _, hd⟩ := List.mem_map.mp (List.mem_filter.mp hx1).1
      rw [← hd]
      exact toLower_idem d
  have hP1 : ∀ c ∈ pyStrip v, pySpace c = true → c = ' ' := by
    intro c hc hs
    rcases hmem c hc with h | ⟨_, h2, _⟩
    · exact h
    · rw [hs] at h2; cases h2
  have hND : noDoubleSpace (pyStrip v) = true :=
    dropTrailing_noDouble _ (dropLeading_noDouble _ (collapse_noDouble x false))
  have h1 : (pyStrip v).map Char.toLower = pyStrip v := by
    refine map_fix _ fun c hc => ?_
    rcases hmem c hc with h | ⟨_, _, h3⟩
    · rw [h]; decide
    · exact h3
  have h2 : (pyStrip v).filter keepChar = pyStrip v := by
    refine filter_fix _ fun c hc => ?_
    rcases hmem c hc with h | ⟨h1', _, _⟩
    · rw [h]; decide
    · exact h1'
  have h3 : collapseAux false (pyStrip v) = pyStrip v :=
    (collapse_fix (pyStrip v) hP1 hND).2
  have h4 : dropLeading (pyStrip v) = pyStrip v := by
    refine dropLeading_fix _ fun c hc => ?_
    exact dropLeading_head v c (dropTrailing_head (dropLeading v) c hc)
  have h5 : dropTrailing (pyStrip v) = pyStrip v := by
    refine dropTrailing_fix _ fun c hc => ?_
    exact dropTrailing_getLast (dropLeading v) c hc
  rw [h1, h2, h3]
  show dropTrailing (dropLeading (pyStrip v)) = pyStrip v
  rw [h4, h5]

/-- Claim C10: title normalization is idempotent.  For every string t,
normalize_title applied twice agrees with normalize_title applied once, so a
catalog title normalized at query time compares correctly against library
entries already normalized at scan time. -/
theorem claimC10 (t : String) :
    normalize_title (normalize_title t) = normalize_title t :=
  congrArg (fun l : List Char => (⟨l⟩ : String)) (normalize_chars_idem t.data)

/-! ## Claims C4, C6, C8, C9 -/

/-- Claim C4: the library matcher reports a match exactly when the exact
(normalized title, year) pair is present, or some entry shares the
normalized title and its year is unknown, or some entry shares the
normalized title and both years are known and equal (the catalog-side year
is always known: the source passes a plain int).  The four concrete example
verdicts of the spec are included. -/
theorem claimC4 :
    (∀ (title : String) (year : Int) (lookup : List (String × Option Int)),
      movie_exists_in_library title year lookup = true ↔
        ((normalize_title title, (some year : Option Int)) ∈ lookup
          ∨ (∃ p ∈ lookup, p.1 = normalize_title title ∧ p.2 = none)
          ∨ (∃ p ∈ lookup, p.1 = normalize_title title ∧ p.2 = some year)))
    ∧ movie_exists_in_library "Inception" 2010 [("inception", some 2010)] = true
    ∧ movie_exists_in_library "Inception" 2010 [("inception", none)] = true
    ∧ movie_exists_in_library "Inception" 2010 [("inception", some 2011)] = false
    ∧ movie_exists_in_library "Inception" 2010 [("interstellar", some 2010)] = false := by
  refine ⟨?_, by decide, by decide, by decide, by decide⟩
  intro title year lookup
  simp only [movie_exists_in_library]
  by_cases hmem : (normalize_title title, (some year : Option Int)) ∈ lookup
  · rw [if_pos hmem]
    exact iff_of_true rfl (Or.inl hmem)
  · rw [if_neg hmem, List.any_eq_true]
    simp only [Bool.and_eq_true, Bool.or_eq_true, decide_eq_true_eq]
    constructor
    · rintro ⟨p, hp, h1, h2 | h2⟩
      · exact Or.inr (Or.inl ⟨p, hp, h1, h2⟩)
      · exact Or.inr (Or.inr ⟨p, hp, h1, h2⟩)
    · rintro (h | ⟨p, hp, h1, h2⟩ | ⟨p, hp, h1, h2⟩)
      · exact absurd h hmem
      · exact ⟨p, hp, h1, Or.inl h2⟩
      · exact ⟨p, hp, h1, Or.inr h2⟩

/-- Witness for C4 at the spec's concrete example. -/
theorem claimC4_witness :
    movie_exists_in_library "Inception" 2010 [("inception", some 2010)] = true :=
  claimC4.2.1

/-- Claim C6: with both watchlist toggles set, show_watchlist_only takes
precedence: the verdict coincides with the one where hide_watchlist is
cleared (so a watchlisted movie is not hidden by the watchlist stage), a
movie not on the watchlist is rejected, and hide_watchlist only rejects
watchlisted movies when show_watchlist_only is not set. -/
theorem claimC6 (f : Filters) (g : GridSets) (m : Movie) :
    moviePasses { f with show_watchlist_only := true, hide_watchlist := true } g m =
      moviePasses { f with show_watchlist_only := true, hide_watchlist := false } g m
    ∧ (m.imdb_code ∉ g.watchlist_codes →
        moviePasses { f with show_watchlist_only := true, hide_watchlist := true } g m
          = false)
    ∧ (m.imdb_code ∈ g.watchlist_codes →
        moviePasses { f with show_watchlist_only := false, hide_watchlist := true } g m
          = false) := by
  refine ⟨rfl, ?_, ?_⟩
  · intro h
    simp [moviePasses, h]
  · intro h
    simp [moviePasses, h]

/-- Witness for C6: with both toggles set, a movie absent from the watchlist
is rejected; with only hide_watchlist set, a watchlisted movie is rejected. -/
theorem claimC6_witness :
    moviePasses { cfgOpen with show_watchlist_only := true, hide_watchlist := true }
      noSets movie2010 = false
    ∧ moviePasses { cfgOpen with show_watchlist_only := false, hide_watchlist := true }
      wlSets movie2010 = false :=
  ⟨(claimC6 cfgOpen noSets movie2010).2.1 (by decide),
   (claimC6 cfgOpen wlSets movie2010).2.2 (by decide)⟩

/-- The for-loop of get_magnet picks exactly the first torrent whose quality
label equals the requested one. -/
theorem get_magnet_loop_eq (ttl q : String) : ∀ ts : List Torrent,
    get_magnet_loop ttl q ts =
      (ts.find? fun t => decide (t.quality = q)).map fun t => magnet_link t.hash ttl
  | [] => rfl
  | t :: rest => by
    by_cases h : t.quality = q
    · simp [get_magnet_loop, List.find?_cons, h]
    · simp [get_magnet_loop, List.find?_cons, h, get_magnet_loop_eq ttl q rest]

/-- Claim C8: get_magnet emits a magnet URI of the hardcoded-tracker form
from the hash of the first variant matching the requested quality; when no
variant matches it falls back to the first variant; with zero variants it
returns none. -/
theorem claimC8 (m : Movie) (q : String) :
    (m.torrents = [] → m.get_magnet q = none)
    ∧ (∀ t, (m.torrents.find? fun t => decide (t.quality = q)) = some t →
        m.get_magnet q = some ("magnet:?xt=urn:btih:" ++ t.hash ++ "&dn=" ++ m.title ++
          "&tr=udp://open.demonii.com:1337/announce&tr=udp://tracker.openbittorrent.com:80"))
    ∧ ((m.torrents.find? fun t => decide (t.quality = q)) = none →
        ∀ t0 rest, m.torrents = t0 :: rest →
          m.get_magnet q = some ("magnet:?xt=urn:btih:" ++ t0.hash ++ "&dn=" ++ m.title ++
            "&tr=udp://open.demonii.com:1337/announce&tr=udp://tracker.openbittorrent.com:80")) := by
  refine ⟨?_, ?_, ?_⟩
  · intro h
    simp [Movie.get_magnet, get_magnet_loop_eq, h]
  · intro t ht
    simp only [Movie.get_magnet, get_magnet_loop_eq, ht, Option.map_some']
    rfl
  · intro hf t0 rest htor
    have hf2 : (List.find? (fun t => decide (t.quality = q)) (t0 :: rest)) = none := by
      rw [← htor]; exact hf
    simp only [Movie.get_magnet, get_magnet_loop_eq, htor, hf2, Option.map_none']
    rfl

/-- Witness for C8: the no-variant, matching-variant and fallback cases at
the concrete fixture movies. -/
theorem claimC8_witness :
    movie2010.get_magnet "1080p" = none
    ∧ movieTor.get_magnet "1080p" =
        some ("magnet:?xt=urn:btih:" ++ t1080.hash ++ "&dn=" ++ movieTor.title ++
          "&tr=udp://open.demonii.com:1337/announce&tr=udp://tracker.openbittorrent.com:80")
    ∧ movieTor.get_magnet "2160p" =
        some ("magnet:?xt=urn:btih:" ++ t720.hash ++ "&dn=" ++ movieTor.title ++
          "&tr=udp://open.demonii.com:1337/announce&tr=udp://tracker.openbittorrent.com:80") :=
  ⟨(claimC8 movie2010 "1080p").1 rfl,
   (claimC8 movieTor "1080p").2.1 t1080 (by decide),
   (claimC8 movieTor "2160p").2.2 (by decide) t720 [t1080] rfl⟩

/-- Claim C9: Movie.from_dict is total on dictionaries (it is a Lean
function, so it succeeds on every input including the empty dictionary) and
every absent key yields its fixed default: 0 for the numeric fields, 0.0
for rating, the empty string for text fields, the empty list for genres and
torrents, and likewise for the per-torrent fields size_bytes, seeds and
peers.  The empty dictionary yields the all-default Movie. -/
theorem claimC9 (d : MovieDict) :
    (d.id = none → (Movie.from_dict d).id = 0)
    ∧ (d.year = none → (Movie.from_dict d).year = 0)
    ∧ (d.runtime = none → (Movie.from_dict d).runtime = 0)
    ∧ (d.rating = none → (Movie.from_dict d).rating = 0)
    ∧ (d.imdb_code = none → (Movie.from_dict d).imdb_code = "")
    ∧ (d.title = none → (Movie.from_dict d).title = "")
    ∧ (d.title_long = none → (Movie.from_dict d).title_long = "")
    ∧ (d.synopsis = none → (Movie.from_dict d).synopsis = "")
    ∧ (d.language = none → (Movie.from_dict d).language = "")
    ∧ (d.background_image = none → (Movie.from_dict d).background_image = "")
    ∧ (d.small_cover_image = none → (Movie.from_dict d).small_cover_image = "")
    ∧ (d.medium_cover_image = none → (Movie.from_dict d).medium_cover_image = "")
    ∧ (d.large_cover_image = none → (Movie.from_dict d).large_cover_image = "")
    ∧ (d.genres = none → (Movie.from_dict d).genres = [])
    ∧ (d.torrents = none → (Movie.from_dict d).torrents = [])
    ∧ (∀ t : TorrentDict,
        (t.size_bytes = none → (Torrent.from_dict t).size_bytes = 0)
        ∧ (t.seeds = none → (Torrent.from_dict t).seeds = 0)
        ∧ (t.peers = none → (Torrent.from_dict t).peers = 0)
        ∧ (t.url = none → (Torrent.from_dict t).url = "")
        ∧ (t.hash = none → (Torrent.from_dict t).hash = "")
        ∧ (t.quality = none → (Torrent.from_dict t).quality = "")
        ∧ (t.type = none → (Torrent.from_dict t).type = "")
        ∧ (t.size = none → (Torrent.from_dict t).size = ""))
    ∧ Movie.from_dict emptyMovieDict =
        ⟨0, "", "", "", 0, 0, 0, [], "", "", "", "", "", "", []⟩ :=
  ⟨fun h => by simp [Movie.from_dict, h],
   fun h => by simp [Movie.from_dict, h],
   fun h => by simp [Movie.from_dict, h],
   fun h => by simp [Movie.from_dict, h],
   fun h => by simp [Movie.from_dict, h],
   fun h => by simp [Movie.from_dict, h],
   fun h => by simp [Movie.from_dict, h],
   fun h => by simp [Movie.from_dict, h],
   fun h => by simp [Movie.from_dict, h],
   fun h => by simp [Movie.from_dict, h],
   fun h => by simp [Movie.from_dict, h],
   fun h => by simp [Movie.from_dict, h],
   fun h => by simp [Movie.from_dict, h],
   fun h => by simp [Movie.from_dict, h],
   fun h => by simp [Movie.from_dict, h],
   fun t =>
     ⟨fun h => by simp [Torrent.from_dict, h],
      fun h => by simp [Torrent.from_dict, h],
      fun h => by simp [Torrent.from_dict, h],
      fun h => by simp [Torrent.from_dict, h],
      fun h => by simp [Torrent.from_dict, h],
      fun h => by simp [Torrent.from_dict, h],
      fun h => by simp [Torrent.from_dict, h],
      fun h => by simp [Torrent.from_dict, h]⟩,
   by decide⟩

/-- Witness for C9 at the empty dictionary. -/
theorem claimC9_witness :
    (Movie.from_dict emptyMovieDict).id = 0
    ∧ (Movie.from_dict emptyMovieDict).year = 0 :=
  ⟨(claimC9 emptyMovieDict).1 rfl, (claimC9 emptyMovieDict).2.1 rfl⟩

/-! ## Claims C5, C1 : mirror client -/

/-- Filtering an enumeration that starts above the excluded index keeps
every element. -/
theorem enumFrom_filter_ne_lt (l : List String) : ∀ n k : Nat, k < n →
    ((l.enumFrom n).filter fun p => decide (p.1 ≠ k)).map Prod.snd = l := by
  induction l with
  | nil => intro n k _; simp [List.enumFrom]
  | cons a t ih =>
    intro n k hk
    rw [List.enumFrom_cons, List.filter_cons]
    have hne : (decide (n ≠ k)) = true := decide_eq_true (by omega)
    rw [hne]
    simp only [if_true, List.map_cons]
    rw [ih (n + 1) k (by omega)]

/-- Filtering out exactly one index from an enumeration erases exactly that
position. -/
theorem enumFrom_filter_ne (l : List String) : ∀ n j : Nat,
    ((l.enumFrom n).filter fun p => decide (p.1 ≠ (n + j))).map Prod.snd =
      l.eraseIdx j := by
  induction l with
  | nil => intro n j; simp [List.enumFrom, List.eraseIdx]
  | cons a t ih =>
    intro n j
    cases j with
    | zero =>
      rw [List.enumFrom_cons, List.filter_cons]
      have hne : (decide (n ≠ n + 0)) = false := by simp
      rw [hne]
      simp only [Bool.false_eq_true, if_false, List.eraseIdx_cons_zero]
      have := enumFrom_filter_ne_lt t (n + 1) n (by omega)
      simpa using this
    | succ j =>
      rw [List.enumFrom_cons, List.filter_cons]
      have hne : (decide (n ≠ n + (j + 1))) = true := decide_eq_true (by omega)
      rw [hne]
      simp only [if_true, List.map_cons, List.eraseIdx_cons_succ]
      have := ih (n + 1) j
      have harith : n + 1 + j = n + (j + 1) := by omega
      rw [harith] at this
      rw [this]

/-- The attempt order of _try_request is the preferred mirror followed by
the remaining mirrors in their original priority order. -/
theorem mirrorsToTry_eq (st : ApiState)
    (h : st.current_mirror_idx < st.mirrors.length) :
    YTSApi.mirrorsToTry st =
      st.mirrors.get ⟨st.current_mirror_idx, h⟩ ::
        st.mirrors.eraseIdx st.current_mirror_idx := by
  unfold YTSApi.mirrorsToTry
  rw [getElem!_pos st.mirrors st.current_mirror_idx h]
  have := enumFrom_filter_ne st.mirrors 0 st.current_mirror_idx
  simp only [Nat.zero_add] at this
  rw [List.enum, this, List.get_eq_getElem]

/-- Mirrors that fail are skipped by the fail-over loop. -/
theorem tryGo_append_fail (net : String → Option Resp) (st : ApiState) :
    ∀ (pre rest : List String), (∀ m ∈ pre, YTSApi.okResp (net m) = false) →
      YTSApi.tryGo net st (pre ++ rest) = YTSApi.tryGo net st rest := by
  intro pre
  induction pre with
  | nil => intro rest _; rfl
  | cons m pre ih =>
    intro rest h
    have hm := h m (List.mem_cons_self m pre)
    rw [List.cons_append]
    show YTSApi.tryGo net st (m :: (pre ++ rest)) = _
    cases hnet : net m with
    | none =>
      simp only [YTSApi.tryGo, hnet]
      exact ih rest fun x hx => h x (List.mem_cons_of_mem m hx)
    | some d =>
      rw [hnet] at hm
      simp only [YTSApi.okResp, decide_eq_false_iff_not] at hm
      simp only [YTSApi.tryGo, hnet, if_neg hm]
      exact ih rest fun x hx => h x (List.mem_cons_of_mem m hx)

/-- The fail-over loop returns the first valid response together with the
sticky-routing state update. -/
theorem tryGo_success (net : String → Option Resp) (st : ApiState)
    (m : String) (rest : List String) (d : Resp)
    (hm : net m = some d) (hok : d.status = some "ok") :
    YTSApi.tryGo net st (m :: rest) = (some d, YTSApi.updateMirror st m) := by
  simp [YTSApi.tryGo, hm, hok]

/-- If every mirror in the attempt order fails, the loop reports no data and
leaves the state unchanged. -/
theorem tryGo_all_fail (net : String → Option Resp) (st : ApiState)
    (ms : List String) (h : ∀ m ∈ ms, YTSApi.okResp (net m) = false) :
    YTSApi.tryGo net st ms = (none, st) := by
  have := tryGo_append_fail net st ms [] h
  rw [List.append_nil] at this
  rw [this]
  rfl

/-- Claim C5: for a consistent mirror state the per-call attempt order is
the preferred mirror first followed by all remaining mirrors in original
priority order; if k is the first mirror in that order to yield a
successful well-formed response, try_request returns that response and the
updated preferred mirror is k, so that the next call's attempt order starts
with k. -/
theorem claimC5 (st : ApiState) (net : String → Option Resp)
    (pre post : List String) (k : String) (d : Resp)
    (hidx : st.current_mirror_idx < st.mirrors.length)
    (hbase : st.baseUrl = st.mirrors.get ⟨st.current_mirror_idx, hidx⟩)
    (horder : YTSApi.mirrorsToTry st = pre ++ k :: post)
    (hpre : ∀ m ∈ pre, YTSApi.okResp (net m) = false)
    (hk : net k = some d) (hok : d.status = some "ok") :
    YTSApi.mirrorsToTry st =
      st.mirrors.get ⟨st.current_mirror_idx, hidx⟩ ::
        st.mirrors.eraseIdx st.current_mirror_idx
    ∧ YTSApi.try_request net st = (some d, YTSApi.updateMirror st k)
    ∧ (YTSApi.updateMirror st k).mirrors = st.mirrors
    ∧ (YTSApi.mirrorsToTry (YTSApi.updateMirror st k)).head? = some k := by
  have hshape := mirrorsToTry_eq st hidx
  have hkmem : k ∈ st.mirrors := by
    have hk1 : k ∈ YTSApi.mirrorsToTry st := by
      rw [horder]
      exact List.mem_append_right pre (List.mem_cons_self k post)
    rw [hshape] at hk1
    rcases List.mem_cons.mp hk1 with h | h
    · rw [h, List.get_eq_getElem]
      exact List.getElem_mem hidx
    · exact List.Sublist.mem h (List.eraseIdx_sublist st.mirrors st.current_mirror_idx)
  refine ⟨hshape, ?_, ?_, ?_⟩
  · unfold YTSApi.try_request
    rw [horder, tryGo_append_fail net st pre (k :: post) hpre,
      tryGo_success net st k post d hk hok]
  · unfold YTSApi.updateMirror
    split <;> rfl
  · by_cases hbk : k = st.baseUrl
    · have hupd : YTSApi.updateMirror st k = st := by
        unfold YTSApi.updateMirror
        rw [if_neg (by simp [hbk])]
      rw [hupd, hshape, List.head?_cons, ← hbase, hbk]
    · have hupd : YTSApi.updateMirror st k =
          { st with baseUrl := k, current_mirror_idx := st.mirrors.indexOf k } := by
        unfold YTSApi.updateMirror
        rw [if_pos hbk]
      rw [hupd]
      have hlt : st.mirrors.indexOf k < st.mirrors.length :=
        List.indexOf_lt_length.mpr hkmem
      have hsh2 := mirrorsToTry_eq
        { st with baseUrl := k, current_mirror_idx := st.mirrors.indexOf k } hlt
      rw [hsh2, List.head?_cons, List.get_eq_getElem]
      exact congrArg some (List.getElem_indexOf hlt)

/-- Witness for C5: with the real mirror list, a network where only the
third mirror answers; try_request succeeds with it and subsequently prefers
it. -/
theorem claimC5_witness :
    YTSApi.try_request netThird apiStart =
      (some respC5, YTSApi.updateMirror apiStart "https://yts.rs/api/v2")
    ∧ (YTSApi.mirrorsToTry
        (YTSApi.updateMirror apiStart "https://yts.rs/api/v2")).head? =
      some "https://yts.rs/api/v2" := by
  have h := claimC5 apiStart netThird
    ["https://yts.lt/api/v2", "https://yts.mx/api/v2"]
    ["https://yts.torrentbay.to/api/v2"]
    "https://yts.rs/api/v2" respC5
    (by decide) (by decide) (by decide) (by decide) (by decide) (by decide)
  exact ⟨h.2.1, h.2.2.2⟩

/-- Claim C1 (amended): when every mirror in the attempt order fails,
list_movies returns the pair ([], 0) — exactly the value it returns when a
mirror succeeds but the catalog has zero matching movies (movie count 0 and
an empty or absent raw movie list).  The all-mirrors-failed outcome is thus
reported as an ordinary zero-result listing; only a log line
distinguishes the two. -/
theorem claimC1 (net net2 : String → Option Resp) (st st2 : ApiState)
    (d : Resp) (body : ListData)
    (hfail : ∀ m ∈ YTSApi.mirrorsToTry st, YTSApi.okResp (net m) = false)
    (hsucc : (YTSApi.try_request net2 st2).1 = some d)
    (hdata : d.data = some body)
    (hcount : body.movie_count = some 0 ∨ body.movie_count = none)
    (hraw : body.movies = some [] ∨ body.movies = none) :
    (YTSApi.list_movies net st).1 = ([], 0)
    ∧ (YTSApi.list_movies net2 st2).1 = ([], 0) := by
  constructor
  · have h1 : YTSApi.try_request net st = (none, st) :=
      tryGo_all_fail net st (YTSApi.mirrorsToTry st) hfail
    simp [YTSApi.list_movies, h1]
  · have hraw0 : body.movies.getD [] = [] := by
      rcases hraw with h | h <;> simp [h]
    have hcount0 : body.movie_count.getD 0 = 0 := by
      rcases hcount with h | h <;> simp [h]
    rcases hpr : YTSApi.try_request net2 st2 with ⟨r1, r2⟩
    rw [hpr] at hsucc
    simp only at hsucc
    subst hsucc
    simp only [YTSApi.list_movies, hpr, hdata, Option.getD_some, hraw0, hcount0,
      if_pos rfl]
    simp

/-- Witness for C1 at the concrete fixtures: the all-failing network and the
empty-success network both produce ([], 0). -/
theorem claimC1_witness :
    (YTSApi.list_movies netAllFail apiStart).1 = ([], 0)
    ∧ (YTSApi.list_movies netEmptyOk apiStart).1 = ([], 0) :=
  claimC1 netAllFail netEmptyOk apiStart apiStart respEmptyOk
    ⟨some 0, some []⟩ (by decide) (by decide) rfl (Or.inl rfl) (Or.inl rfl)

/-- Counterexample for C1 as stated: at the concrete fixtures the value
surfaced for an all-mirrors-failed call is equal to — not distinct from —
the value surfaced when a mirror succeeds with zero matching movies. -/
theorem claimC1_counterexample :
    (YTSApi.list_movies netAllFail apiStart).1 =
      (YTSApi.list_movies netEmptyOk apiStart).1
    ∧ (YTSApi.list_movies netAllFail apiStart).1 = ([], 0) := by
  constructor <;> decide

/-! ## Claims C2, C3, C7 : pagination controller -/

/-- The load-more handler always leaves the grid holding the previous cards
followed by the survivors of the delivered page under the current filters
(in its all-filtered terminal branch it clears a grid that is already
empty, so the equation holds there too). -/
theorem on_more_cards (movies : List Movie) (total : Int) (st : WinState) :
    (on_more_movies_loaded movies total st).cards =
      st.cards ++ movies.filter (moviePasses st.current_filters st.sets) := by
  simp only [on_more_movies_loaded, MovieGrid.add_movies]
  split <;> split <;> (try split) <;>
    first
      | rfl
      | (rename_i h2; exact (List.length_eq_zero.mp h2).symm)

/-- The initial-load handler always leaves the grid holding exactly the
survivors of the delivered page under the current filters (its two
show_empty_state branches clear a grid that is already empty). -/
theorem on_movies_cards (movies : List Movie) (total : Int) (st : WinState) :
    (on_movies_loaded movies total st).cards =
      movies.filter (moviePasses st.current_filters st.sets) := by
  simp only [on_movies_loaded, MovieGrid.set_movies, MovieGrid.add_movies,
    List.nil_append]
  split
  · rename_i h
    rw [h, List.filter_nil]
  · split
    · split
      · rfl
      · rename_i h2 hlt
        exact (List.length_eq_zero.mp h2).symm
    · rfl

/-- The load-more handler invokes check_needs_more exactly when the updated
empty-page counter is still below the 20-page ceiling. -/
theorem on_more_wantsMore (movies : List Movie) (total : Int) (st : WinState) :
    (on_more_movies_loaded movies total st).wantsMore =
      decide ((if (st.cards ++ movies.filter (moviePasses st.current_filters st.sets)).length
            = st.cards.length ∧ movies ≠ []
          then st.empty_pages_count + 1 else 0) < 20) := by
  simp only [on_more_movies_loaded, MovieGrid.add_movies]
  split <;> split <;> (try split) <;> simp_all

/-- The load-more handler shows the all-filtered empty state exactly when
the updated counter has hit the ceiling and the grid is empty. -/
theorem on_more_msg (movies : List Movie) (total : Int) (st : WinState) :
    (on_more_movies_loaded movies total st).emptyStateMsg =
      (if (if (st.cards ++ movies.filter (moviePasses st.current_filters st.sets)).length
              = st.cards.length ∧ movies ≠ []
            then st.empty_pages_count + 1 else 0) < 20 then none
        else if (st.cards ++
            movies.filter (moviePasses st.current_filters st.sets)).length = 0
          then some "All movies filtered. Try different filters." else none) := by
  simp only [on_more_movies_loaded, MovieGrid.add_movies]
  split <;> split <;> (try split) <;> simp_all

/-- Claim C2 (amended): a FilterConfig change arriving while a fetch is in
flight does not cancel it and is itself dropped by the is_loading guard:
the handler stores the new filters and resets the cursor and counter, but
the pending loader and the visible cards are untouched, and when the
in-flight result later arrives it IS filtered under the new configuration
and reconciled into the visible result set (appended for a load-more,
installed as the new grid for an initial load); no generation counter
exists. -/
theorem claimC2 (st : WinState) (f : Filters) (movies : List Movie) (total : Int)
    (h : st.is_loading = true) :
    (on_filters_changed f st).is_loading = true
    ∧ (on_filters_changed f st).pending = st.pending
    ∧ (on_filters_changed f st).cards = st.cards
    ∧ (on_filters_changed f st).current_filters = f
    ∧ (st.pending = some LoadKind.more →
        (deliver movies total (on_filters_changed f st)).cards =
          st.cards ++ movies.filter (moviePasses f st.sets))
    ∧ (st.pending = some LoadKind.initial →
        (deliver movies total (on_filters_changed f st)).cards =
          movies.filter (moviePasses f st.sets)) := by
  have hfc : on_filters_changed f st =
      { st with current_filters := f, current_page := 1, empty_pages_count := 0 } := by
    simp [on_filters_changed, load_movies, h]
  refine ⟨by rw [hfc]; exact h, by rw [hfc], by rw [hfc], by rw [hfc], ?_, ?_⟩
  · intro hp
    rw [hfc]
    show (deliver movies total _).cards = _
    simp only [deliver, hp]
    rw [on_more_cards]
  · intro hp
    rw [hfc]
    show (deliver movies total _).cards = _
    simp only [deliver, hp]
    rw [on_movies_cards]

/-- Witness for C2: the concrete in-flight trace, with the stale load-more
result reconciled under the new configuration. -/
theorem claimC2_witness :
    (deliver [movie2010] 500 (on_filters_changed cfgOpen c2s1)).cards =
      c2s1.cards ++ [movie2010].filter (moviePasses cfgOpen c2s1.sets) := by
  have h := claimC2 c2s1 cfgOpen [movie2010] 500 (by decide)
  exact h.2.2.2.2.1 (by decide)

/-- Counterexample for C2 as stated: a fetch is in flight under cfgOld when
the configuration changes to cfgOpen; the stale result is NOT discarded —
it is filtered under the new configuration (it would have been rejected
under the old one) and becomes visible. -/
theorem claimC2_counterexample :
    c2s1.is_loading = true
    ∧ c2s1.current_filters = cfgOld
    ∧ c2s2.pending = some LoadKind.more
    ∧ c2s2.current_filters = cfgOpen
    ∧ moviePasses cfgOld noSets movie2010 = false
    ∧ c2s3.cards = [movie2010] := by
  refine ⟨by decide, by decide, by decide, by decide, by decide, by decide⟩

/-- Claim C3 (amended): in the load-more handler the empty-page counter
increments on each unproductive page (at least one raw item, zero new
visible items) and resets whenever a page adds a visible item; once it
reaches 20 the handler never invokes check_needs_more (no further page is
requested by the controller), and the distinct all-filtered state is
reported exactly when the accumulated visible set is empty — as it always
is for a configuration rejecting 100 percent of items — while with visible
items from earlier pages the controller stops silently. -/
theorem claimC3 (st : WinState) (movies : List Movie) (total : Int) :
    ((movies.filter (moviePasses st.current_filters st.sets)).length = 0 →
        movies ≠ [] →
        (on_more_movies_loaded movies total st).empty_pages_count =
          st.empty_pages_count + 1)
    ∧ (0 < (movies.filter (moviePasses st.current_filters st.sets)).length →
        (on_more_movies_loaded movies total st).empty_pages_count = 0)
    ∧ (20 ≤ (on_more_movies_loaded movies total st).empty_pages_count →
        (on_more_movies_loaded movies total st).wantsMore = false)
    ∧ (20 ≤ (on_more_movies_loaded movies total st).empty_pages_count →
        st.cards.length +
            (movies.filter (moviePasses st.current_filters st.sets)).length = 0 →
        (on_more_movies_loaded movies total st).emptyStateMsg =
          some "All movies filtered. Try different filters.") := by
  have hcount : (on_more_movies_loaded movies total st).empty_pages_count =
      (if (st.cards ++ movies.filter (moviePasses st.current_filters st.sets)).length
            = st.cards.length ∧ movies ≠ []
        then st.empty_pages_count + 1 else 0) := by
    simp only [on_more_movies_loaded, MovieGrid.add_movies]
    split <;> split <;> (try split) <;> rfl
  refine ⟨?_, ?_, ?_, ?_⟩
  · intro hF hne
    have hc : (st.cards ++ movies.filter (moviePasses st.current_filters st.sets)).length
        = st.cards.length ∧ movies ≠ [] :=
      ⟨by rw [List.length_append, hF, Nat.add_zero], hne⟩
    rw [hcount, if_pos hc]
  · intro hF
    have hc : ¬((st.cards ++
        movies.filter (moviePasses st.current_filters st.sets)).length
          = st.cards.length ∧ movies ≠ []) := by
      rw [List.length_append]
      rintro ⟨h1, _⟩
      omega
    rw [hcount, if_neg hc]
  · intro h20
    rw [hcount] at h20
    rw [on_more_wantsMore]
    generalize hg : (if (st.cards ++
        movies.filter (moviePasses st.current_filters st.sets)).length
          = st.cards.length ∧ movies ≠ []
        then st.empty_pages_count + 1 else 0) = C at h20 ⊢
    have hnlt : ¬(C < 20) := by omega
    simp [hnlt]
  · intro h20 hzero
    rw [hcount] at h20
    rw [on_more_msg]
    have hafter :
        (st.cards ++ movies.filter (moviePasses st.current_filters st.sets)).length
          = 0 := by
      rw [List.length_append]
      omega
    rw [if_pos hafter]
    generalize hg : (if (st.cards ++
        movies.filter (moviePasses st.current_filters st.sets)).length
          = st.cards.length ∧ movies ≠ []
        then st.empty_pages_count + 1 else 0) = C at h20 ⊢
    have hnlt : ¬(C < 20) := by omega
    rw [if_neg hnlt]

/-- Counterexample for C3 as stated: in a reachable trace (one productive
first page, then twenty consecutive unproductive pages each containing one
raw movie rejected by the year filter) the controller does stop requesting
(wantsMore is false at the twentieth unproductive page) but does NOT report
the all-movies-filtered state, because one visible card remains from the
productive page. -/
theorem claimC3_counterexample :
    c3start.cards = [movie2010]
    ∧ c3start.empty_pages_count = 0
    ∧ (c3step^[19] c3start).empty_pages_count = 19
    ∧ (c3step^[19] c3start).wantsMore = true
    ∧ c3final.empty_pages_count = 20
    ∧ c3final.wantsMore = false
    ∧ c3final.cards = [movie2010]
    ∧ c3final.emptyStateMsg = none := by
  refine ⟨by decide, by decide, by decide, by decide, by decide, by decide,
    by decide, by decide⟩

/-- Witness for C3: an unproductive page increments the counter, a
productive page resets it. -/
theorem claimC3_witness :
    (on_more_movies_loaded [movie1900] 500 c3start).empty_pages_count =
      c3start.empty_pages_count + 1
    ∧ (on_more_movies_loaded [movie2010] 500 c3start).empty_pages_count = 0 := by
  have h1 := claimC3 c3start [movie1900] 500
  have h2 := claimC3 c3start [movie2010] 500
  exact ⟨h1.1 (by decide) (by decide), h2.2.1 (by decide)⟩

/-- Claim C7 (amended): a filter change always resets the page cursor, the
empty-page counter and the stored filters, but never clears the visible
cards at that moment; when no fetch is in flight the triggered reload
replaces the grid with the new page's survivors once it completes, while
with a fetch in flight the reload is dropped and the pending loader is left
untouched. -/
theorem claimC7 (st : WinState) (f : Filters) :
    (on_filters_changed f st).current_page = 1
    ∧ (on_filters_changed f st).empty_pages_count = 0
    ∧ (on_filters_changed f st).current_filters = f
    ∧ (on_filters_changed f st).cards = st.cards
    ∧ (st.is_loading = false →
        (on_filters_changed f st).pending = some LoadKind.initial
        ∧ ∀ (movies : List Movie) (total : Int),
            (deliver movies total (on_filters_changed f st)).cards =
              movies.filter (moviePasses f st.sets))
    ∧ (st.is_loading = true → (on_filters_changed f st).pending = st.pending) := by
  by_cases h : st.is_loading = true
  · have hfc : on_filters_changed f st =
        { st with current_filters := f, current_page := 1,
                  empty_pages_count := 0 } := by
      simp [on_filters_changed, load_movies, h]
    refine ⟨by rw [hfc], by rw [hfc], by rw [hfc], by rw [hfc], ?_,
      fun _ => by rw [hfc]⟩
    intro h0
    rw [h] at h0
    simp at h0
  · have h' : st.is_loading = false := by
      revert h; cases st.is_loading <;> simp
    have hfc : on_filters_changed f st =
        { st with current_filters := f, current_page := 1,
                  empty_pages_count := 0, is_loading := true,
                  pending := some LoadKind.initial } := by
      simp [on_filters_changed, load_movies, h']
    refine ⟨by rw [hfc], by rw [hfc], by rw [hfc], by rw [hfc],
      fun _ => ⟨by rw [hfc], ?_⟩, fun hl => by rw [h'] at hl; simp at hl⟩
    intro movies total
    rw [hfc]
    show (deliver movies total _).cards = _
    simp only [deliver]
    rw [on_movies_cards]

/-- Witness for C7: in the not-loading case the reload's completion installs
the new page's survivors; in the loading case the pending loader is kept. -/
theorem claimC7_witness :
    (deliver [movie2010] 500 (on_filters_changed cfgOpen (win0 cfgOpen))).cards =
      [movie2010].filter (moviePasses cfgOpen (win0 cfgOpen).sets)
    ∧ (on_filters_changed cfgNarrow c7s2).pending = c7s2.pending := by
  have h1 := claimC7 (win0 cfgOpen) cfgOpen
  have h2 := claimC7 c7s2 cfgNarrow
  exact ⟨(h1.2.2.2.2.1 (by decide)).2 [movie2010] 500,
    h2.2.2.2.2.2 (by decide)⟩

/-- Counterexample for C7 as stated: with one visible card and a fetch in
flight, a filter change resets the cursor and the counter but leaves the
visible-result count at 1 (not 0), and the stale in-flight result then
grows it to 2. -/
theorem claimC7_counterexample :
    c7s2.is_loading = true
    ∧ c7s3.current_page = 1
    ∧ c7s3.empty_pages_count = 0
    ∧ c7s3.cards.length = 1
    ∧ (deliver [movie2010] 600 c7s3).cards.length = 2 := by
  refine ⟨by decide, by decide, by decide, by decide, by decide⟩
